import Mathlib

set_option linter.unusedVariables false

/-!
Verification of the `ImageClassifier` class of `src/model.py`
(Custom-CNN-Ensemble-Model-vs-Pretrained-Models).

The class is glue code around Keras/sklearn: it selects one of three
pre-trained backbones, freezes it, appends a pooling + dense head, trains via
`fit` with optional balanced class weights, and writes checkpoints and plots
to fixed paths.  The shallow embedding below models:

* Python `str.lower()` (restricted to ASCII, which covers every name the
  code compares against) as `pyLower`;
* the Keras backbone constructors as pure record builders parametrised by
  the (externally determined) number of layers, each layer carrying its
  `trainable` flag (Keras layers default to `trainable = True`);
* `_build_model` / `__init__` as `Except`-valued functions (`raise
  ValueError` becomes `Except.error`, and a raised constructor returns no
  object);
* `train`, `plot_training_performance`, `evaluation_metrics` as functions
  producing an explicit trace of filesystem / training effects
  (`Effect.fit`, `Effect.makedirs`, `Effect.save`, `Effect.savefig`,
  `Effect.showPlot`); external library calls (`model.fit`, the sklearn
  metric functions) are passed in as function parameters, so theorems can
  quantify over every possible behaviour of the external library;
* `sklearn.utils.compute_class_weight(class_weight="balanced", classes=
  np.unique(y), y=y)` as `computeClassWeightBalanced`, which maps each
  distinct label (in sorted order, as `np.unique` returns) to
  `n_samples / (n_classes * count)`, over `ℚ` (the float arithmetic of the
  original is exact on none of the claims; the claims are about the scheme
  and the dict structure, which `ℚ` renders faithfully);
* in-place weight mutation performed by `model.fit` as a bump of an
  abstract `weightsState` counter, which lets theorems distinguish "the
  model changed" from "the `trainable` flags changed".
-/

namespace CNN

/-- ASCII lowercasing of one character, the fragment of Python `str.lower()`
exercised by the code (all names compared against are ASCII). -/
def pyLowerChar (c : Char) : Char :=
  if 'A' ≤ c ∧ c ≤ 'Z' then Char.ofNat (c.toNat + 32) else c

/-- Python `str.lower()` on ASCII strings: lowercase every character. -/
def pyLower (s : String) : String :=
  ⟨s.data.map pyLowerChar⟩

/-- Which of the three Keras applications was selected (`model.py` line 42-47). -/
inductive Backbone
  | VGG16
  | InceptionV3
  | ResNet50
deriving DecidableEq, Repr

/-- A Keras layer, reduced to the single attribute the code manipulates:
its `trainable` flag. -/
structure Layer where
  trainable : Bool
deriving DecidableEq, Repr

/-- A pre-trained Keras application as returned by `VGG16(...)` /
`InceptionV3(...)` / `ResNet50(...)`: the constructor arguments the code
passes, plus the layer list (whose length is fixed by the external
architecture, here a parameter; Keras layers start `trainable = True`). -/
structure PretrainedBase where
  backbone : Backbone
  weights : String
  include_top : Bool
  input_shape : List Nat
  layers : List Layer
deriving DecidableEq, Repr

/-- `keras.applications.VGG16(weights=..., include_top=..., input_shape=...)`. -/
def kerasVGG16 (weights : String) (include_top : Bool) (input_shape : List Nat)
    (nLayers : Nat) : PretrainedBase :=
  { backbone := Backbone.VGG16, weights := weights, include_top := include_top,
    input_shape := input_shape,
    layers := List.replicate nLayers { trainable := true } }

/-- `keras.applications.InceptionV3(...)`. -/
def kerasInceptionV3 (weights : String) (include_top : Bool) (input_shape : List Nat)
    (nLayers : Nat) : PretrainedBase :=
  { backbone := Backbone.InceptionV3, weights := weights, include_top := include_top,
    input_shape := input_shape,
    layers := List.replicate nLayers { trainable := true } }

/-- `keras.applications.ResNet50(...)`. -/
def kerasResNet50 (weights : String) (include_top : Bool) (input_shape : List Nat)
    (nLayers : Nat) : PretrainedBase :=
  { backbone := Backbone.ResNet50, weights := weights, include_top := include_top,
    input_shape := input_shape,
    layers := List.replicate nLayers { trainable := true } }

/-- What a head layer is (`model.py` lines 56-58). -/
inductive HeadLayerKind
  | globalAveragePooling2D
  | dense (units : Nat) (activation : String)
deriving DecidableEq, Repr

/-- An appended head layer with its `trainable` flag (Keras default `True`,
never touched by the code). -/
structure HeadLayer where
  kind : HeadLayerKind
  trainable : Bool
deriving DecidableEq, Repr

/-- The compiled Keras model produced by `_build_model`: the backbone
construction arguments, the (frozen) backbone layers, the appended head, the
compile arguments, and an abstract counter of in-place weight updates
performed by `fit` (so that training visibly changes the model while leaving
every `trainable` flag alone). -/
structure KerasModel where
  backbone : Backbone
  backboneWeights : String
  backboneIncludeTop : Bool
  backboneInputShape : List Nat
  backboneLayers : List Layer
  head : List HeadLayer
  optimizer : String
  loss : String
  metrics : List String
  weightsState : Nat
deriving DecidableEq, Repr

/-- `model.py` lines 41-49: the `if/elif/elif/else raise ValueError` chain
selecting the pre-trained base, each branch passing
`input_shape=self.input_shape + (3,)` (tuple concatenation). -/
def selectBaseModel (base_model_name : String) (input_shape : List Nat)
    (nLayers : Nat) : Except String PretrainedBase :=
  if base_model_name = "vgg16" then
    Except.ok (kerasVGG16 "imagenet" false (input_shape ++ [3]) nLayers)
  else if base_model_name = "inceptionv3" then
    Except.ok (kerasInceptionV3 "imagenet" false (input_shape ++ [3]) nLayers)
  else if base_model_name = "resnet50" then
    Except.ok (kerasResNet50 "imagenet" false (input_shape ++ [3]) nLayers)
  else
    Except.error ("Unsupported base model name: " ++ base_model_name)

/-- `model.py` lines 51-66: freeze every backbone layer
(`layer.trainable = False`), append `GlobalAveragePooling2D` and
`Dense(num_classes, activation)`, and compile with
`optimizer="adam", loss="binary_crossentropy", metrics=["accuracy"]`. -/
def assembleCompiled (base_model : PretrainedBase) (num_classes : Nat)
    (activation : String) : KerasModel :=
  { backbone := base_model.backbone,
    backboneWeights := base_model.weights,
    backboneIncludeTop := base_model.include_top,
    backboneInputShape := base_model.input_shape,
    backboneLayers := base_model.layers.map (fun l => { l with trainable := false }),
    head := [{ kind := HeadLayerKind.globalAveragePooling2D, trainable := true },
             { kind := HeadLayerKind.dense num_classes activation, trainable := true }],
    optimizer := "adam",
    loss := "binary_crossentropy",
    metrics := ["accuracy"],
    weightsState := 0 }

/-- `ImageClassifier._build_model` (`model.py` lines 34-66). -/
def buildModel (base_model_name : String) (input_shape : List Nat)
    (num_classes : Nat) (activation : String) (nLayers : Nat) :
    Except String KerasModel :=
  match selectBaseModel base_model_name input_shape nLayers with
  | Except.error e => Except.error e
  | Except.ok base_model => Except.ok (assembleCompiled base_model num_classes activation)

/-- The fields of a constructed `ImageClassifier` object. -/
structure ImageClassifier where
  input_shape : List Nat
  num_classes : Nat
  activation : String
  base_model_name : String
  model : KerasModel
deriving DecidableEq, Repr

/-- `ImageClassifier.__init__` (`model.py` lines 19-32): lowercase the name,
store the fields, build the model; a `ValueError` from `_build_model`
propagates, so no object is returned on an unsupported name. -/
def init (input_shape : List Nat) (num_classes : Nat) (activation : String)
    (base_model_name : String) (nLayers : Nat) :
    Except String ImageClassifier :=
  match buildModel (pyLower base_model_name) input_shape num_classes activation nLayers with
  | Except.error e => Except.error e
  | Except.ok m =>
      Except.ok { input_shape := input_shape, num_classes := num_classes,
                  activation := activation,
                  base_model_name := pyLower base_model_name, model := m }

/-- `os.path.join(a, b)` for the relative path components used here. -/
def osPathJoin (a b : String) : String :=
  a ++ "/" ++ b

/-- Insert into a sorted list of naturals. -/
def insertSorted (a : Nat) : List Nat → List Nat
  | [] => [a]
  | b :: bs => if a ≤ b then a :: b :: bs else b :: insertSorted a bs

/-- Insertion sort on naturals. -/
def sortNat (l : List Nat) : List Nat :=
  l.foldr insertSorted []

/-- `np.unique(y)`: the distinct values of `y` in increasing order. -/
def npUnique (y : List Nat) : List Nat :=
  sortNat y.dedup

/-- `sklearn.utils.compute_class_weight(class_weight="balanced",
classes=np.unique(y), y=y)`: one weight per distinct label, in the order of
`np.unique(y)`, equal to `n_samples / (n_classes * count)` (over `ℚ`). -/
def computeClassWeightBalanced (y : List Nat) : List ℚ :=
  (npUnique y).map
    (fun c => (y.length : ℚ) / (((npUnique y).length : ℚ) * (y.count c : ℚ)))

/-- `keras.callbacks.EarlyStopping(monitor=..., patience=...,
restore_best_weights=...)`, the only callback kind the code builds. -/
structure EarlyStoppingArgs where
  monitor : String
  patience : Nat
  restore_best_weights : Bool
deriving DecidableEq, Repr

/-- A Keras callback object. -/
inductive Callback
  | earlyStopping (args : EarlyStoppingArgs)
deriving DecidableEq, Repr

/-- `model.py` line 83: the single callback `train` constructs. -/
def earlyStopCallback : Callback :=
  Callback.earlyStopping
    { monitor := "val_loss", patience := 13, restore_best_weights := true }

/-- The arguments of one `self.model.fit(...)` invocation that the claims
observe: the step counts, the `class_weight` dict (an association list,
`none` when the argument is omitted) and the callback list. -/
structure FitCall where
  steps_per_epoch : Nat
  epochs : Nat
  validation_steps : Nat
  class_weight : Option (List (Nat × ℚ))
  callbacks : List Callback
deriving DecidableEq, Repr

/-- The externally visible effects of a method call, in program order. -/
inductive Effect
  | fit (call : FitCall)
  | makedirs (dir : String) (exist_ok : Bool)
  | save (path : String)
  | savefig (path : String)
  | showPlot
deriving DecidableEq, Repr

/-- Is this effect a `model.save`? -/
def isSaveEffect : Effect → Bool
  | Effect.save _ => true
  | _ => false

/-- Is this effect a `model.fit`? -/
def isFitEffect : Effect → Bool
  | Effect.fit _ => true
  | _ => false

/-- The `fit` call of `model.py` lines 95-103 (`class_weight` passed). -/
def cwFitCall (epochs step_size_train step_size_val : Nat) (w0 w1 : ℚ) : FitCall :=
  { steps_per_epoch := step_size_train, epochs := epochs,
    validation_steps := step_size_val,
    class_weight := some [(0, w0), (1, w1)],
    callbacks := [earlyStopCallback] }

/-- The `fit` call of `model.py` lines 108-115 (no `class_weight`). -/
def plainFitCall (epochs step_size_train step_size_val : Nat) : FitCall :=
  { steps_per_epoch := step_size_train, epochs := epochs,
    validation_steps := step_size_val,
    class_weight := none,
    callbacks := [earlyStopCallback] }

/-- `model.fit` mutates the model weights in place; the embedding bumps the
abstract `weightsState` counter and touches nothing else, because the source
assigns no layer attribute during training. -/
def fitPost (self : ImageClassifier) : ImageClassifier :=
  { self with model := { self.model with weightsState := self.model.weightsState + 1 } }

/-- `ImageClassifier.train` (`model.py` lines 68-126).  `train_classes` is
`train_data.classes`; `fitImpl` is the external training loop, returning the
Keras `History` object (type `H`).  When `class_weights` is true the code
computes the balanced weights and builds the dict
`{0: class_weight[0], 1: class_weight[1]}` — with fewer than two distinct
labels the indexing raises `IndexError` before `fit` runs.  The returned
trace lists the `fit` call, the `os.makedirs(model_dir, exist_ok=True)` and
the `self.model.save(filepath)` in program order; the fitted classifier,
the history and the trace are returned. -/
def train {H : Type} (self : ImageClassifier) (train_classes : List Nat)
    (epochs step_size_train step_size_val : Nat)
    (class_weights augment : Bool) (fitImpl : FitCall → H) :
    Except String (ImageClassifier × H × List Effect) :=
  if class_weights then
    match (computeClassWeightBalanced train_classes)[0]?,
          (computeClassWeightBalanced train_classes)[1]? with
    | some w0, some w1 =>
        Except.ok (fitPost self,
          fitImpl (cwFitCall epochs step_size_train step_size_val w0 w1),
          [Effect.fit (cwFitCall epochs step_size_train step_size_val w0 w1),
           Effect.makedirs
             (osPathJoin "models" (self.base_model_name ++ "_with_weights")) true,
           Effect.save
             (osPathJoin (osPathJoin "models" (self.base_model_name ++ "_with_weights"))
               (self.base_model_name ++ "_with_weights.h5"))])
    | _, _ => Except.error "IndexError: index 1 is out of bounds"
  else
    if augment then
      Except.ok (fitPost self,
        fitImpl (plainFitCall epochs step_size_train step_size_val),
        [Effect.fit (plainFitCall epochs step_size_train step_size_val),
         Effect.makedirs
           (osPathJoin "models" (self.base_model_name ++ "_data_augmentation")) true,
         Effect.save
           (osPathJoin (osPathJoin "models" (self.base_model_name ++ "_data_augmentation"))
             (self.base_model_name ++ "_data_augmentation.h5"))])
    else
      Except.ok (fitPost self,
        fitImpl (plainFitCall epochs step_size_train step_size_val),
        [Effect.fit (plainFitCall epochs step_size_train step_size_val),
         Effect.makedirs (osPathJoin "models" self.base_model_name) true,
         Effect.save
           (osPathJoin (osPathJoin "models" self.base_model_name)
             (self.base_model_name ++ ".h5"))])

/-- The subdirectory name that the claim C5/C7 naming scheme predicts:
`name + "_with_weights"` when `class_weights`, else `name +
"_data_augmentation"` when `augment`, else `name` alone. -/
def subdirName (name : String) (class_weights augment : Bool) : String :=
  if class_weights then name ++ "_with_weights"
  else if augment then name ++ "_data_augmentation"
  else name

/-- `ImageClassifier.evaluate` (`model.py` lines 128-140): a one-line
delegation to `self.model.evaluate`; it reads the model and mutates nothing,
so the post-state classifier is the receiver unchanged. -/
def evaluate {R : Type} (self : ImageClassifier) (step_size : Nat)
    (evalImpl : Nat → R) : ImageClassifier × R :=
  (self, evalImpl step_size)

/-- `ImageClassifier.test` (`model.py` lines 142-147): a one-line delegation
to `self.model.predict`; it mutates nothing. -/
def test {P : Type} (self : ImageClassifier) (step_size_test : Nat)
    (predictImpl : Nat → P) : ImageClassifier × P :=
  (self, predictImpl step_size_test)

/-- The `history.history` dict read by `plot_training_performance`. -/
structure History where
  accuracy : List ℚ
  val_accuracy : List ℚ
  loss : List ℚ
  val_loss : List ℚ
deriving DecidableEq, Repr

/-- `ImageClassifier.plot_training_performance` (`model.py` lines 149-191).
The matplotlib rendering is external output with no program state; the
embedding keeps the artifact behaviour: the `if/elif/else` directory choice
(lines 179-187), `os.makedirs(..., exist_ok=True)`, the `savefig` to
`training_validation_graphs.png` and the `plt.show()`.  The method assigns
no attribute, so the post-state classifier is the receiver unchanged. -/
def plotTrainingPerformance (self : ImageClassifier) (history : History)
    (class_weights augment : Bool) : ImageClassifier × List Effect :=
  if class_weights then
    (self, [Effect.makedirs
              (osPathJoin "graphs" (self.base_model_name ++ "_with_weights")) true,
            Effect.savefig
              (osPathJoin (osPathJoin "graphs" (self.base_model_name ++ "_with_weights"))
                "training_validation_graphs.png"),
            Effect.showPlot])
  else if augment then
    (self, [Effect.makedirs
              (osPathJoin "graphs" (self.base_model_name ++ "_data_augmentation")) true,
            Effect.savefig
              (osPathJoin (osPathJoin "graphs" (self.base_model_name ++ "_data_augmentation"))
                "training_validation_graphs.png"),
            Effect.showPlot])
  else
    (self, [Effect.makedirs (osPathJoin "graphs" self.base_model_name) true,
            Effect.savefig
              (osPathJoin (osPathJoin "graphs" self.base_model_name)
                "training_validation_graphs.png"),
            Effect.showPlot])

/-- `np.argmax` accumulator: scan the tail, keeping the first index of the
strictly greatest value seen so far. -/
def npArgmaxAux : List ℚ → Nat → Nat → ℚ → Nat
  | [], _, best, _ => best
  | x :: xs, i, best, bv =>
      if bv < x then npArgmaxAux xs (i + 1) i x
      else npArgmaxAux xs (i + 1) best bv

/-- `np.argmax` on one row: the first index attaining the maximum
(`np.argmax` of an empty row raises; rows here have `num_classes ≥ 1`
entries, the total function returns 0 there). -/
def npArgmax : List ℚ → Nat
  | [] => 0
  | x :: xs => npArgmaxAux xs 1 0 x

/-- The sklearn functions `evaluation_metrics` calls, passed in as external
library behaviour: each takes `(true_labels, predicted_labels)`. -/
structure SklearnLib where
  accuracy_score : List Nat → List Nat → ℚ
  f1_score_macro : List Nat → List Nat → ℚ
  roc_auc_score : List Nat → List Nat → ℚ
  precision_recall_curve : List Nat → List Nat → List ℚ × List ℚ × List ℚ
  confusion_matrix : List Nat → List Nat → List (List Nat)
  precision_score : List Nat → List Nat → ℚ
  recall_score : List Nat → List Nat → ℚ

/-- Everything `evaluation_metrics` computes, plots or prints. -/
structure EvalMetricsOutput where
  pred : List Nat
  accuracy : ℚ
  f1 : ℚ
  roc_auc : ℚ
  prec_curve : List ℚ
  recall_curve : List ℚ
  conf_mat : List (List Nat)
  printed : List (String × ℚ)
  effects : List Effect
deriving Repr

/-- `ImageClassifier.evaluation_metrics` (`model.py` lines 193-249):
`pred = np.argmax(prediction, axis=1)`, the five sklearn metrics and the
precision-recall curve and confusion matrix all evaluated at
`(test_generator.classes, pred)`, the `if/elif/else` directory choice
(lines 215-223), and the two `savefig`s and final prints.  Rendering calls
are external output; the filesystem effects are kept in program order. -/
def evaluationMetrics (self : ImageClassifier) (lib : SklearnLib)
    (prediction : List (List ℚ)) (test_classes : List Nat)
    (class_weights augment : Bool) : ImageClassifier × EvalMetricsOutput :=
  (self,
  { pred := prediction.map npArgmax,
    accuracy := lib.accuracy_score test_classes (prediction.map npArgmax),
    f1 := lib.f1_score_macro test_classes (prediction.map npArgmax),
    roc_auc := lib.roc_auc_score test_classes (prediction.map npArgmax),
    prec_curve := (lib.precision_recall_curve test_classes (prediction.map npArgmax)).1,
    recall_curve := (lib.precision_recall_curve test_classes (prediction.map npArgmax)).2.1,
    conf_mat := lib.confusion_matrix test_classes (prediction.map npArgmax),
    printed :=
      [("Accuracy", lib.accuracy_score test_classes (prediction.map npArgmax)),
       ("Precision", lib.precision_score test_classes (prediction.map npArgmax)),
       ("Recall", lib.recall_score test_classes (prediction.map npArgmax)),
       ("F1 Score", lib.f1_score_macro test_classes (prediction.map npArgmax)),
       ("ROC AUC Score", lib.roc_auc_score test_classes (prediction.map npArgmax))],
    effects :=
      if class_weights then
        [Effect.makedirs
           (osPathJoin "graphs" (self.base_model_name ++ "_with_weights")) true,
         Effect.savefig
           (osPathJoin (osPathJoin "graphs" (self.base_model_name ++ "_with_weights"))
             "precision_recall_graph.png"),
         Effect.savefig
           (osPathJoin (osPathJoin "graphs" (self.base_model_name ++ "_with_weights"))
             "confusion_matrix.png"),
         Effect.showPlot]
      else if augment then
        [Effect.makedirs
           (osPathJoin "graphs" (self.base_model_name ++ "_data_augmentation")) true,
         Effect.savefig
           (osPathJoin (osPathJoin "graphs" (self.base_model_name ++ "_data_augmentation"))
             "precision_recall_graph.png"),
         Effect.savefig
           (osPathJoin (osPathJoin "graphs" (self.base_model_name ++ "_data_augmentation"))
             "confusion_matrix.png"),
         Effect.showPlot]
      else
        [Effect.makedirs (osPathJoin "graphs" self.base_model_name) true,
         Effect.savefig
           (osPathJoin (osPathJoin "graphs" self.base_model_name)
             "precision_recall_graph.png"),
         Effect.savefig
           (osPathJoin (osPathJoin "graphs" self.base_model_name)
             "confusion_matrix.png"),
         Effect.showPlot] })

/-- A concrete fully built classifier: the value of
`init [120, 120] 2 "sigmoid" "VGG16" 3`. -/
def sampleModel : KerasModel :=
  { backbone := Backbone.VGG16, backboneWeights := "imagenet",
    backboneIncludeTop := false,
    backboneInputShape := [120, 120, 3],
    backboneLayers := [{ trainable := false }, { trainable := false }, { trainable := false }],
    head := [{ kind := HeadLayerKind.globalAveragePooling2D, trainable := true },
             { kind := HeadLayerKind.dense 2 "sigmoid", trainable := true }],
    optimizer := "adam", loss := "binary_crossentropy", metrics := ["accuracy"],
    weightsState := 0 }

/-- The classifier object `ImageClassifier((120, 120), base_model_name="VGG16")`
builds (with a 3-layer stand-in for the VGG16 layer list). -/
def sampleClassifier : ImageClassifier :=
  { input_shape := [120, 120], num_classes := 2, activation := "sigmoid",
    base_model_name := "vgg16", model := sampleModel }

/-- The classifier built from the constructor docstring's own example shape
`(120, 120, 3)`: the backbone receives the 4-component shape
`(120, 120, 3, 3)`. -/
def docExampleClassifier : ImageClassifier :=
  { input_shape := [120, 120, 3], num_classes := 2, activation := "sigmoid",
    base_model_name := "vgg16",
    model := { sampleModel with backboneInputShape := [120, 120, 3, 3] } }

/-- A trivial instantiation of the external sklearn metric functions, used
to evaluate the embeddings at concrete inputs. -/
def constSklearnLib : SklearnLib :=
  { accuracy_score := fun _ _ => 0,
    f1_score_macro := fun _ _ => 0,
    roc_auc_score := fun _ _ => 0,
    precision_recall_curve := fun _ _ => ([], [], []),
    confusion_matrix := fun _ _ => [],
    precision_score := fun _ _ => 0,
    recall_score := fun _ _ => 0 }

/-- Effect trace of `train(..., class_weights=False, augment=True)` on the
sample classifier with `epochs=5, step_size_train=10, step_size_val=8`. -/
def effsPlain : List Effect :=
  [Effect.fit (plainFitCall 5 10 8),
   Effect.makedirs (osPathJoin "models" ("vgg16" ++ "_data_augmentation")) true,
   Effect.save (osPathJoin (osPathJoin "models" ("vgg16" ++ "_data_augmentation"))
     ("vgg16" ++ "_data_augmentation.h5"))]

/-- Effect trace of `train(..., class_weights=True)` on the sample
classifier with `train_data.classes = [0, 1, 2]` (three present classes,
balanced weights all 1). -/
def effs012 : List Effect :=
  [Effect.fit (cwFitCall 5 10 8 1 1),
   Effect.makedirs (osPathJoin "models" ("vgg16" ++ "_with_weights")) true,
   Effect.save (osPathJoin (osPathJoin "models" ("vgg16" ++ "_with_weights"))
     ("vgg16" ++ "_with_weights.h5"))]

deriving instance DecidableEq for Except

/-! ### Helper lemmas -/

/-- Literal fact used when relating the two filepath spellings. -/
theorem withWeightsH5 : ("_with_weights" : String) ++ ".h5" = "_with_weights.h5" := rfl

/-- Literal fact used when relating the two filepath spellings. -/
theorem dataAugH5 : ("_data_augmentation" : String) ++ ".h5" = "_data_augmentation.h5" := rfl

/-- Inversion of a successful `init`: the stored fields and the shape of the
built model, for every accepted backbone name. -/
theorem init_ok_spec (input_shape : List Nat) (num_classes : Nat)
    (activation base_model_name : String) (nLayers : Nat) (c : ImageClassifier)
    (hok : init input_shape num_classes activation base_model_name nLayers = Except.ok c) :
    c.input_shape = input_shape ∧ c.num_classes = num_classes ∧
    c.activation = activation ∧ c.base_model_name = pyLower base_model_name ∧
    c.model.backboneWeights = "imagenet" ∧ c.model.backboneIncludeTop = false ∧
    c.model.backboneInputShape = input_shape ++ [3] ∧
    c.model.backboneLayers =
      (List.replicate nLayers { trainable := true } : List Layer).map
        (fun l => { l with trainable := false }) ∧
    c.model.head = [{ kind := HeadLayerKind.globalAveragePooling2D, trainable := true },
                    { kind := HeadLayerKind.dense num_classes activation, trainable := true }] ∧
    c.model.optimizer = "adam" ∧ c.model.loss = "binary_crossentropy" ∧
    c.model.metrics = ["accuracy"] ∧ c.model.weightsState = 0 ∧
    (pyLower base_model_name = "vgg16" → c.model.backbone = Backbone.VGG16) ∧
    (pyLower base_model_name = "inceptionv3" → c.model.backbone = Backbone.InceptionV3) ∧
    (pyLower base_model_name = "resnet50" → c.model.backbone = Backbone.ResNet50) := by
  rw [init] at hok
  split at hok
  · exact Except.noConfusion hok
  · rename_i m heq
    simp only [Except.ok.injEq] at hok
    subst hok
    rw [buildModel] at heq
    split at heq
    · exact Except.noConfusion heq
    · rename_i base_model hsel
      simp only [Except.ok.injEq] at heq
      subst heq
      rw [selectBaseModel] at hsel
      by_cases h1 : pyLower base_model_name = "vgg16"
      · rw [if_pos h1] at hsel
        simp only [Except.ok.injEq] at hsel
        subst hsel
        refine ⟨rfl, rfl, rfl, rfl, rfl, rfl, rfl, rfl, rfl, rfl, rfl, rfl, rfl,
          fun _ => rfl, fun h2 => ?_, fun h3 => ?_⟩
        · rw [h1] at h2
          exact absurd h2 (by decide)
        · rw [h1] at h3
          exact absurd h3 (by decide)
      · rw [if_neg h1] at hsel
        by_cases h2 : pyLower base_model_name = "inceptionv3"
        · rw [if_pos h2] at hsel
          simp only [Except.ok.injEq] at hsel
          subst hsel
          refine ⟨rfl, rfl, rfl, rfl, rfl, rfl, rfl, rfl, rfl, rfl, rfl, rfl, rfl,
            fun h1x => ?_, fun _ => rfl, fun h3 => ?_⟩
          · rw [h2] at h1x
            exact absurd h1x (by decide)
          · rw [h2] at h3
            exact absurd h3 (by decide)
        · rw [if_neg h2] at hsel
          by_cases h3 : pyLower base_model_name = "resnet50"
          · rw [if_pos h3] at hsel
            simp only [Except.ok.injEq] at hsel
            subst hsel
            refine ⟨rfl, rfl, rfl, rfl, rfl, rfl, rfl, rfl, rfl, rfl, rfl, rfl, rfl,
              fun h1x => ?_, fun h2x => ?_, fun _ => rfl⟩
            · rw [h3] at h1x
              exact absurd h1x (by decide)
            · rw [h3] at h2x
              exact absurd h2x (by decide)
          · rw [if_neg h3] at hsel
            exact Except.noConfusion hsel

/-- Inversion of a successful `train`: the post-state classifier, the
returned history and the full effect trace, with the `fit` call described
for both values of `class_weights`. -/
theorem train_ok_spec {H : Type} (self : ImageClassifier) (y : List Nat)
    (epochs sst ssv : Nat) (cw aug : Bool) (fitImpl : FitCall → H)
    (post : ImageClassifier) (hist : H) (effs : List Effect)
    (hok : train self y epochs sst ssv cw aug fitImpl = Except.ok (post, hist, effs)) :
    ∃ call : FitCall,
      post = fitPost self ∧ hist = fitImpl call ∧
      effs = [Effect.fit call,
        Effect.makedirs (osPathJoin "models" (subdirName self.base_model_name cw aug)) true,
        Effect.save (osPathJoin (osPathJoin "models" (subdirName self.base_model_name cw aug))
          (subdirName self.base_model_name cw aug ++ ".h5"))] ∧
      call.callbacks = [earlyStopCallback] ∧
      (cw = true → ∃ w0 w1, (computeClassWeightBalanced y)[0]? = some w0 ∧
        (computeClassWeightBalanced y)[1]? = some w1 ∧
        call = cwFitCall epochs sst ssv w0 w1) ∧
      (cw = false → call = plainFitCall epochs sst ssv) := by
  rw [train] at hok
  split at hok
  · rename_i hcw
    split at hok
    · rename_i w0 w1 heq0 heq1
      simp only [Except.ok.injEq, Prod.mk.injEq] at hok
      obtain ⟨hpost, hhist, heffs⟩ := hok
      subst hcw
      refine ⟨cwFitCall epochs sst ssv w0 w1, hpost.symm, hhist.symm, ?_, rfl, ?_, ?_⟩
      · rw [← heffs]
        simp [subdirName, String.append_assoc, withWeightsH5, dataAugH5]
      · exact fun _ => ⟨w0, w1, heq0, heq1, rfl⟩
      · intro h
        exact Bool.noConfusion h
    · exact Except.noConfusion hok
  · rename_i hcw
    have hcwf : cw = false := by
      cases cw
      · rfl
      · exact absurd rfl hcw
    subst hcwf
    split at hok
    · rename_i haug
      simp only [Except.ok.injEq, Prod.mk.injEq] at hok
      obtain ⟨hpost, hhist, heffs⟩ := hok
      subst haug
      refine ⟨plainFitCall epochs sst ssv, hpost.symm, hhist.symm, ?_, rfl, ?_, fun _ => rfl⟩
      · rw [← heffs]
        simp [subdirName, String.append_assoc, withWeightsH5, dataAugH5]
      · intro h
        exact Bool.noConfusion h
    · rename_i haug
      have haugf : aug = false := by
        cases aug
        · rfl
        · exact absurd rfl haug
      subst haugf
      simp only [Except.ok.injEq, Prod.mk.injEq] at hok
      obtain ⟨hpost, hhist, heffs⟩ := hok
      refine ⟨plainFitCall epochs sst ssv, hpost.symm, hhist.symm, ?_, rfl, ?_, fun _ => rfl⟩
      · rw [← heffs]
        simp [subdirName, String.append_assoc, withWeightsH5, dataAugH5]
      · intro h
        exact Bool.noConfusion h

/-! ### Claim theorems -/

/-- Claim C1: `__init__` builds a model exactly when the lowercased
`base_model_name` is one of `"vgg16"`, `"inceptionv3"`, `"resnet50"`; for
every other name `_build_model` raises `ValueError` with the unsupported
name in the message, and no partially-initialized object is returned. -/
theorem c1_init_ok_iff_supported_name (input_shape : List Nat) (num_classes : Nat)
    (activation base_model_name : String) (nLayers : Nat) :
    ((∃ c, init input_shape num_classes activation base_model_name nLayers = Except.ok c) ↔
      (pyLower base_model_name = "vgg16" ∨ pyLower base_model_name = "inceptionv3" ∨
        pyLower base_model_name = "resnet50")) ∧
    (pyLower base_model_name ≠ "vgg16" → pyLower base_model_name ≠ "inceptionv3" →
      pyLower base_model_name ≠ "resnet50" →
      init input_shape num_classes activation base_model_name nLayers =
        Except.error ("Unsupported base model name: " ++ pyLower base_model_name)) := by
  by_cases h1 : pyLower base_model_name = "vgg16"
  · simp [init, buildModel, selectBaseModel, h1]
  · by_cases h2 : pyLower base_model_name = "inceptionv3"
    · simp [init, buildModel, selectBaseModel, h1, h2]
    · by_cases h3 : pyLower base_model_name = "resnet50"
      · simp [init, buildModel, selectBaseModel, h1, h2, h3]
      · simp [init, buildModel, selectBaseModel, h1, h2, h3]

/-- Witness for C1 at concrete inputs: `"ResNet50"` is accepted,
`"alexnet"` is rejected with the `ValueError` message. -/
theorem c1_witness :
    (∃ c, init [120, 120] 2 "sigmoid" "ResNet50" 3 = Except.ok c) ∧
    init [120, 120] 2 "sigmoid" "alexnet" 3 =
      Except.error ("Unsupported base model name: " ++ pyLower "alexnet") :=
  ⟨(c1_init_ok_iff_supported_name [120, 120] 2 "sigmoid" "ResNet50" 3).1.mpr
      (by decide),
   (c1_init_ok_iff_supported_name [120, 120] 2 "sigmoid" "alexnet" 3).2
      (by decide) (by decide) (by decide)⟩

/-- The `npArgmaxAux` scan returns either its incumbent index or the
position (offset by `i`) of some tail element. -/
theorem npArgmaxAux_shape (xs : List ℚ) : ∀ (i best : Nat) (bv : ℚ),
    npArgmaxAux xs i best bv = best ∨
      ∃ k, k < xs.length ∧ npArgmaxAux xs i best bv = i + k := by
  induction xs with
  | nil =>
    intro i best bv
    exact Or.inl rfl
  | cons x xs ih =>
    intro i best bv
    rw [npArgmaxAux]
    by_cases h : bv < x
    · rw [if_pos h]
      rcases ih (i + 1) i x with h1 | ⟨k, hk, h2⟩
      · exact Or.inr ⟨0, by simp, by rw [h1, Nat.add_zero]⟩
      · exact Or.inr ⟨k + 1, by simp [Nat.succ_lt_succ hk], by rw [h2]; omega⟩
    · rw [if_neg h]
      rcases ih (i + 1) best bv with h1 | ⟨k, hk, h2⟩
      · exact Or.inl h1
      · exact Or.inr ⟨k + 1, by simp [Nat.succ_lt_succ hk], by rw [h2]; omega⟩

/-- The value at the index returned by the `npArgmaxAux` scan dominates the
incumbent value and every scanned element (`f` reads the original row). -/
theorem npArgmaxAux_max (xs : List ℚ) : ∀ (i best : Nat) (bv : ℚ) (f : Nat → ℚ),
    f best = bv → (∀ k, k < xs.length → f (i + k) = xs.getD k 0) →
    bv ≤ f (npArgmaxAux xs i best bv) ∧
      ∀ k, k < xs.length → xs.getD k 0 ≤ f (npArgmaxAux xs i best bv) := by
  induction xs with
  | nil =>
    intro i best bv f hbest _
    rw [npArgmaxAux]
    exact ⟨le_of_eq hbest.symm, fun k hk => absurd hk (by simp)⟩
  | cons x xs ih =>
    intro i best bv f hbest hf
    have hfx : f i = x := by
      have h0 := hf 0 (by simp)
      simpa using h0
    have htail : ∀ k, k < xs.length → f (i + 1 + k) = xs.getD k 0 := by
      intro k hk
      have h1 := hf (k + 1) (by simpa using Nat.succ_lt_succ hk)
      rw [show i + 1 + k = i + (k + 1) by omega]
      simpa using h1
    rw [npArgmaxAux]
    by_cases h : bv < x
    · rw [if_pos h]
      obtain ⟨h1, h2⟩ := ih (i + 1) i x f hfx htail
      refine ⟨le_trans (le_of_lt h) h1, ?_⟩
      intro k hk
      cases k with
      | zero => simpa using h1
      | succ k =>
        have h3 := h2 k (by simpa using hk)
        simpa using h3
    · rw [if_neg h]
      obtain ⟨h1, h2⟩ := ih (i + 1) best bv f hbest htail
      refine ⟨h1, ?_⟩
      intro k hk
      cases k with
      | zero =>
        have hxbv : x ≤ bv := not_lt.mp h
        simpa using le_trans hxbv h1
      | succ k =>
        have h3 := h2 k (by simpa using hk)
        simpa using h3

/-- `np.argmax` of a non-empty row is a valid index of the row. -/
theorem npArgmax_lt_length (r : List ℚ) (h : r ≠ []) : npArgmax r < r.length := by
  cases r with
  | nil => exact absurd rfl h
  | cons x xs =>
    rw [npArgmax]
    rcases npArgmaxAux_shape xs 1 0 x with h1 | ⟨k, hk, h2⟩
    · rw [h1]
      simp
    · rw [h2]
      simp only [List.length_cons]
      omega

/-- The row value at `np.argmax` dominates every entry of the row. -/
theorem npArgmax_is_max (r : List ℚ) (j : Nat) (hj : j < r.length) :
    r.getD j 0 ≤ r.getD (npArgmax r) 0 := by
  cases r with
  | nil => simp at hj
  | cons x xs =>
    have htail : ∀ k, k < xs.length →
        (fun n => (x :: xs).getD n 0) (1 + k) = xs.getD k 0 := by
      intro k hk
      show (x :: xs).getD (1 + k) 0 = xs.getD k 0
      rw [Nat.add_comm]
      simp
    have key := npArgmaxAux_max xs 1 0 x (fun n => (x :: xs).getD n 0) (by simp) htail
    obtain ⟨h1, h2⟩ := key
    rw [npArgmax]
    cases j with
    | zero => simpa using h1
    | succ j =>
      have h3 := h2 j (by simpa using hj)
      simpa using h3

/-- The balanced class weights of `[0, 1, 2]` are all 1. -/
theorem computeClassWeightBalanced_012 :
    computeClassWeightBalanced [0, 1, 2] = [1, 1, 1] := by
  have hu : npUnique [0, 1, 2] = [0, 1, 2] := by decide
  rw [computeClassWeightBalanced, hu]
  norm_num [List.count_cons, List.count_nil]

/-- A concrete `class_weights=True` training run on three present classes:
the dict passed to `fit` is `{0: 1, 1: 1}`. -/
theorem train_run_012 :
    train sampleClassifier [0, 1, 2] 5 10 8 true true (fun call => call) =
      Except.ok (fitPost sampleClassifier, cwFitCall 5 10 8 1 1, effs012) := by
  rw [train, computeClassWeightBalanced_012]
  simp [sampleClassifier, effs012]

/-- Claim C2 (amended): for every `train` call with `class_weights=True`
that returns, the balanced weight vector is computed from
`train_data.classes` (entry `i` equals `n_samples / (n_classes * count)` of
the `i`-th smallest present label), and the dict passed to `fit`'s
`class_weight` argument is exactly `{0: w[0], 1: w[1]}` — hard-coded
entries for the labels 0 and 1, which is one entry per present class only
when the present labels are exactly 0 and 1. -/
theorem c2_balanced_weights_dict {H : Type} (self : ImageClassifier)
    (train_classes : List Nat) (epochs step_size_train step_size_val : Nat)
    (augment : Bool) (fitImpl : FitCall → H) (post : ImageClassifier)
    (hist : H) (effs : List Effect)
    (hok : train self train_classes epochs step_size_train step_size_val true augment
      fitImpl = Except.ok (post, hist, effs)) :
    ∃ w0 w1,
      (computeClassWeightBalanced train_classes)[0]? = some w0 ∧
      (computeClassWeightBalanced train_classes)[1]? = some w1 ∧
      Effect.fit (cwFitCall epochs step_size_train step_size_val w0 w1) ∈ effs ∧
      hist = fitImpl (cwFitCall epochs step_size_train step_size_val w0 w1) ∧
      (cwFitCall epochs step_size_train step_size_val w0 w1).class_weight =
        some [(0, w0), (1, w1)] ∧
      (∀ (i c : Nat), (npUnique train_classes)[i]? = some c →
        (computeClassWeightBalanced train_classes)[i]? =
          some ((train_classes.length : ℚ) /
            (((npUnique train_classes).length : ℚ) * (train_classes.count c : ℚ)))) := by
  obtain ⟨call, _, hhist, heffs, _, hcw, _⟩ :=
    train_ok_spec self train_classes epochs step_size_train step_size_val true augment
      fitImpl post hist effs hok
  obtain ⟨w0, w1, h0, h1, hcall⟩ := hcw rfl
  subst hcall
  refine ⟨w0, w1, h0, h1, ?_, hhist, rfl, ?_⟩
  · rw [heffs]
    simp
  · intro i c hc
    rw [computeClassWeightBalanced, List.getElem?_map, hc]
    rfl

/-- Counterexample for C2 as stated: with `train_data.classes = [0, 1, 2]`
the call succeeds, class 2 is present, but the dict passed to `fit` is
`{0: 1, 1: 1}` — no weight entry for the present class 2. -/
theorem c2_counterexample :
    train sampleClassifier [0, 1, 2] 5 10 8 true true (fun call => call) =
      Except.ok (fitPost sampleClassifier, cwFitCall 5 10 8 1 1, effs012) ∧
    2 ∈ npUnique [0, 1, 2] ∧
    (cwFitCall 5 10 8 1 1).class_weight = some [(0, 1), (1, 1)] ∧
    (∀ p ∈ [((0 : Nat), (1 : ℚ)), (1, 1)], p.1 ≠ 2) :=
  ⟨train_run_012, by decide, rfl, by decide⟩

/-- Witness for C2 (amended) at the concrete run with classes `[0, 1, 2]`. -/
theorem c2_witness :
    ∃ w0 w1,
      (computeClassWeightBalanced [0, 1, 2])[0]? = some w0 ∧
      (computeClassWeightBalanced [0, 1, 2])[1]? = some w1 ∧
      Effect.fit (cwFitCall 5 10 8 w0 w1) ∈ effs012 ∧
      cwFitCall 5 10 8 1 1 = (fun call => call) (cwFitCall 5 10 8 w0 w1) ∧
      (cwFitCall 5 10 8 w0 w1).class_weight = some [(0, w0), (1, w1)] ∧
      (∀ (i c : Nat), (npUnique [0, 1, 2])[i]? = some c →
        (computeClassWeightBalanced [0, 1, 2])[i]? =
          some ((([0, 1, 2] : List Nat).length : ℚ) /
            (((npUnique [0, 1, 2]).length : ℚ) * (([0, 1, 2] : List Nat).count c : ℚ)))) :=
  c2_balanced_weights_dict sampleClassifier [0, 1, 2] 5 10 8 true (fun call => call)
    (fitPost sampleClassifier) (cwFitCall 5 10 8 1 1) effs012 train_run_012

/-- Claim C3: after a successful `__init__` every backbone layer has
`trainable = False` and the appended head layers are trainable; `train`
changes the model's weight state but neither the backbone layers nor the
head, and `evaluate`, `test` and the plotting methods leave the classifier
untouched. -/
theorem c3_backbone_frozen_invariant (input_shape : List Nat) (num_classes : Nat)
    (activation base_model_name : String) (nLayers : Nat) (c : ImageClassifier)
    (hok : init input_shape num_classes activation base_model_name nLayers = Except.ok c) :
    (∀ l ∈ c.model.backboneLayers, l.trainable = false) ∧
    (∀ hl ∈ c.model.head, hl.trainable = true) ∧
    (∀ (H : Type) (y : List Nat) (epochs sst ssv : Nat) (cw aug : Bool)
        (fitImpl : FitCall → H) (post : ImageClassifier) (hist : H) (effs : List Effect),
      train c y epochs sst ssv cw aug fitImpl = Except.ok (post, hist, effs) →
      post.model.backboneLayers = c.model.backboneLayers ∧
      post.model.head = c.model.head ∧
      post.model.weightsState = c.model.weightsState + 1) ∧
    (∀ (R : Type) (step_size : Nat) (evalImpl : Nat → R),
      (evaluate c step_size evalImpl).1 = c) ∧
    (∀ (P : Type) (step_size_test : Nat) (predictImpl : Nat → P),
      (test c step_size_test predictImpl).1 = c) ∧
    (∀ (history : History) (cw aug : Bool),
      (plotTrainingPerformance c history cw aug).1 = c) ∧
    (∀ (lib : SklearnLib) (prediction : List (List ℚ)) (test_classes : List Nat)
        (cw aug : Bool),
      (evaluationMetrics c lib prediction test_classes cw aug).1 = c) := by
  obtain ⟨_, _, _, _, _, _, _, hlayers, hhead, _, _, _, _, _, _, _⟩ :=
    init_ok_spec input_shape num_classes activation base_model_name nLayers c hok
  refine ⟨?_, ?_, ?_, ?_, ?_, ?_, ?_⟩
  · intro l hl
    rw [hlayers] at hl
    simp only [List.mem_map] at hl
    obtain ⟨l0, _, hl0⟩ := hl
    rw [← hl0]
  · intro hl hmem
    rw [hhead] at hmem
    simp only [List.mem_cons, List.not_mem_nil, or_false] at hmem
    rcases hmem with h | h
    · rw [h]
    · rw [h]
  · intro H y epochs sst ssv cw aug fitImpl post hist effs htr
    obtain ⟨call, hpost, _, _, _, _, _⟩ :=
      train_ok_spec c y epochs sst ssv cw aug fitImpl post hist effs htr
    subst hpost
    exact ⟨rfl, rfl, rfl⟩
  · intro R step_size evalImpl
    rfl
  · intro P step_size_test predictImpl
    rfl
  · intro history cw aug
    cases cw <;> cases aug <;> rfl
  · intro lib prediction test_classes cw aug
    rfl

/-- Witness for C3 at the concrete `"VGG16"` construction. -/
theorem c3_witness :
    init [120, 120] 2 "sigmoid" "VGG16" 3 = Except.ok sampleClassifier ∧
    (evaluate sampleClassifier 7 (fun n => n)).1 = sampleClassifier ∧
    (test sampleClassifier 7 (fun n => n)).1 = sampleClassifier :=
  ⟨rfl,
   (c3_backbone_frozen_invariant [120, 120] 2 "sigmoid" "VGG16" 3 sampleClassifier
      rfl).2.2.2.1 Nat 7 (fun n => n),
   (c3_backbone_frozen_invariant [120, 120] 2 "sigmoid" "VGG16" 3 sampleClassifier
      rfl).2.2.2.2.1 Nat 7 (fun n => n)⟩

/-- Claim C4: a successfully constructed model is the selected imagenet
backbone (`include_top=False`) followed by exactly one
`GlobalAveragePooling2D` and one `Dense(num_classes, activation)` layer,
compiled with `adam` / `binary_crossentropy` / `accuracy`. -/
theorem c4_model_architecture (input_shape : List Nat) (num_classes : Nat)
    (activation base_model_name : String) (nLayers : Nat) (c : ImageClassifier)
    (hok : init input_shape num_classes activation base_model_name nLayers = Except.ok c) :
    c.model.backboneWeights = "imagenet" ∧
    c.model.backboneIncludeTop = false ∧
    c.model.head = [{ kind := HeadLayerKind.globalAveragePooling2D, trainable := true },
                    { kind := HeadLayerKind.dense num_classes activation, trainable := true }] ∧
    c.model.optimizer = "adam" ∧
    c.model.loss = "binary_crossentropy" ∧
    c.model.metrics = ["accuracy"] ∧
    (pyLower base_model_name = "vgg16" → c.model.backbone = Backbone.VGG16) ∧
    (pyLower base_model_name = "inceptionv3" → c.model.backbone = Backbone.InceptionV3) ∧
    (pyLower base_model_name = "resnet50" → c.model.backbone = Backbone.ResNet50) := by
  obtain ⟨_, _, _, _, hw, htop, _, _, hhead, hopt, hloss, hmet, _, hb1, hb2, hb3⟩ :=
    init_ok_spec input_shape num_classes activation base_model_name nLayers c hok
  exact ⟨hw, htop, hhead, hopt, hloss, hmet, hb1, hb2, hb3⟩

/-- Witness for C4 at the concrete `"VGG16"` construction. -/
theorem c4_witness :
    sampleClassifier.model.head =
      [{ kind := HeadLayerKind.globalAveragePooling2D, trainable := true },
       { kind := HeadLayerKind.dense 2 "sigmoid", trainable := true }] ∧
    sampleClassifier.model.optimizer = "adam" ∧
    sampleClassifier.model.loss = "binary_crossentropy" ∧
    sampleClassifier.model.metrics = ["accuracy"] ∧
    sampleClassifier.model.backbone = Backbone.VGG16 :=
  ⟨(c4_model_architecture [120, 120] 2 "sigmoid" "VGG16" 3 sampleClassifier rfl).2.2.1,
   (c4_model_architecture [120, 120] 2 "sigmoid" "VGG16" 3 sampleClassifier rfl).2.2.2.1,
   (c4_model_architecture [120, 120] 2 "sigmoid" "VGG16" 3 sampleClassifier rfl).2.2.2.2.1,
   (c4_model_architecture [120, 120] 2 "sigmoid" "VGG16" 3 sampleClassifier rfl).2.2.2.2.2.1,
   (c4_model_architecture [120, 120] 2 "sigmoid" "VGG16" 3 sampleClassifier
      rfl).2.2.2.2.2.2.1 (by decide)⟩

/-- Claim C5: every successful `train` call yields exactly one
`model.save`, at `models/<d>/<d>.h5` with `<d>` chosen by the
`class_weights`/`augment` scheme; the `makedirs` for the directory precedes
the save, and the history returned by `fit` is returned to the caller. -/
theorem c5_train_saves_model_once {H : Type} (self : ImageClassifier)
    (train_classes : List Nat) (epochs step_size_train step_size_val : Nat)
    (class_weights augment : Bool) (fitImpl : FitCall → H)
    (post : ImageClassifier) (hist : H) (effs : List Effect)
    (hok : train self train_classes epochs step_size_train step_size_val class_weights
      augment fitImpl = Except.ok (post, hist, effs)) :
    ∃ call : FitCall,
      effs = [Effect.fit call,
        Effect.makedirs
          (osPathJoin "models" (subdirName self.base_model_name class_weights augment)) true,
        Effect.save
          (osPathJoin (osPathJoin "models" (subdirName self.base_model_name class_weights augment))
            (subdirName self.base_model_name class_weights augment ++ ".h5"))] ∧
      hist = fitImpl call ∧
      effs.countP isSaveEffect = 1 := by
  obtain ⟨call, _, hhist, heffs, _, _, _⟩ :=
    train_ok_spec self train_classes epochs step_size_train step_size_val class_weights
      augment fitImpl post hist effs hok
  refine ⟨call, heffs, hhist, ?_⟩
  rw [heffs]
  simp [isSaveEffect, List.countP_cons, List.countP_nil]

/-- Witness for C5 at a concrete `class_weights=False, augment=True` run. -/
theorem c5_witness :
    ∃ call : FitCall,
      effsPlain = [Effect.fit call,
        Effect.makedirs
          (osPathJoin "models" (subdirName sampleClassifier.base_model_name false true)) true,
        Effect.save
          (osPathJoin (osPathJoin "models" (subdirName sampleClassifier.base_model_name false true))
            (subdirName sampleClassifier.base_model_name false true ++ ".h5"))] ∧
      plainFitCall 5 10 8 = (fun call => call) call ∧
      effsPlain.countP isSaveEffect = 1 :=
  c5_train_saves_model_once sampleClassifier [] 5 10 8 false true (fun call => call)
    (fitPost sampleClassifier) (plainFitCall 5 10 8) effsPlain rfl

/-- Claim C6: `evaluation_metrics` predicts by row-wise `np.argmax` (a
maximising index of each row), and accuracy, macro F1, ROC-AUC, precision
and recall — as well as the precision-recall curve and the confusion
matrix — are all library calls on the same
`(test_generator.classes, predicted)` pair. -/
theorem c6_metrics_from_argmax (self : ImageClassifier) (lib : SklearnLib)
    (prediction : List (List ℚ)) (test_classes : List Nat)
    (class_weights augment : Bool) :
    (evaluationMetrics self lib prediction test_classes class_weights augment).2.pred =
      prediction.map npArgmax ∧
    (evaluationMetrics self lib prediction test_classes class_weights augment).2.accuracy =
      lib.accuracy_score test_classes (prediction.map npArgmax) ∧
    (evaluationMetrics self lib prediction test_classes class_weights augment).2.f1 =
      lib.f1_score_macro test_classes (prediction.map npArgmax) ∧
    (evaluationMetrics self lib prediction test_classes class_weights augment).2.roc_auc =
      lib.roc_auc_score test_classes (prediction.map npArgmax) ∧
    (evaluationMetrics self lib prediction test_classes class_weights augment).2.prec_curve =
      (lib.precision_recall_curve test_classes (prediction.map npArgmax)).1 ∧
    (evaluationMetrics self lib prediction test_classes class_weights augment).2.recall_curve =
      (lib.precision_recall_curve test_classes (prediction.map npArgmax)).2.1 ∧
    (evaluationMetrics self lib prediction test_classes class_weights augment).2.conf_mat =
      lib.confusion_matrix test_classes (prediction.map npArgmax) ∧
    (evaluationMetrics self lib prediction test_classes class_weights augment).2.printed =
      [("Accuracy", lib.accuracy_score test_classes (prediction.map npArgmax)),
       ("Precision", lib.precision_score test_classes (prediction.map npArgmax)),
       ("Recall", lib.recall_score test_classes (prediction.map npArgmax)),
       ("F1 Score", lib.f1_score_macro test_classes (prediction.map npArgmax)),
       ("ROC AUC Score", lib.roc_auc_score test_classes (prediction.map npArgmax))] ∧
    (∀ r ∈ prediction, r ≠ [] →
      npArgmax r < r.length ∧ ∀ j, j < r.length → r.getD j 0 ≤ r.getD (npArgmax r) 0) := by
  refine ⟨rfl, rfl, rfl, rfl, rfl, rfl, rfl, rfl, ?_⟩
  intro r _ hr
  exact ⟨npArgmax_lt_length r hr, fun j hj => npArgmax_is_max r j hj⟩

/-- Witness for C6 at a concrete two-sample prediction matrix. -/
theorem c6_witness :
    (evaluationMetrics sampleClassifier constSklearnLib [[1, 2], [3, 0]] [1, 0]
      true true).2.pred = ([[1, 2], [3, 0]] : List (List ℚ)).map npArgmax ∧
    (npArgmax [(1 : ℚ), 2] < ([(1 : ℚ), 2] : List ℚ).length ∧
      ∀ j, j < ([(1 : ℚ), 2] : List ℚ).length →
        ([(1 : ℚ), 2] : List ℚ).getD j 0 ≤
          ([(1 : ℚ), 2] : List ℚ).getD (npArgmax [(1 : ℚ), 2]) 0) :=
  ⟨(c6_metrics_from_argmax sampleClassifier constSklearnLib [[1, 2], [3, 0]] [1, 0]
      true true).1,
   (c6_metrics_from_argmax sampleClassifier constSklearnLib [[1, 2], [3, 0]] [1, 0]
      true true).2.2.2.2.2.2.2.2 [(1 : ℚ), 2] (by simp) (by simp)⟩

/-- Claim C7: the artifact-subdirectory naming is equivalent across
`train` (nested `if` inside `else`, under `models`),
`plot_training_performance` and `evaluation_metrics` (`if/elif/else`, under
`graphs`): all three create the same subdirectory name `<d>` for every
`(class_weights, augment)` pair. -/
theorem c7_dir_choice_agrees {H : Type} (self : ImageClassifier)
    (train_classes : List Nat) (epochs step_size_train step_size_val : Nat)
    (class_weights augment : Bool) (fitImpl : FitCall → H)
    (post : ImageClassifier) (hist : H) (effs : List Effect)
    (lib : SklearnLib) (prediction : List (List ℚ)) (test_classes : List Nat)
    (history : History)
    (hok : train self train_classes epochs step_size_train step_size_val class_weights
      augment fitImpl = Except.ok (post, hist, effs)) :
    Effect.makedirs
      (osPathJoin "models" (subdirName self.base_model_name class_weights augment)) true ∈ effs ∧
    Effect.makedirs
      (osPathJoin "graphs" (subdirName self.base_model_name class_weights augment)) true ∈
      (plotTrainingPerformance self history class_weights augment).2 ∧
    Effect.makedirs
      (osPathJoin "graphs" (subdirName self.base_model_name class_weights augment)) true ∈
      (evaluationMetrics self lib prediction test_classes class_weights augment).2.effects := by
  obtain ⟨call, _, _, heffs, _, _, _⟩ :=
    train_ok_spec self train_classes epochs step_size_train step_size_val class_weights
      augment fitImpl post hist effs hok
  refine ⟨?_, ?_, ?_⟩
  · rw [heffs]
    simp
  · cases class_weights <;> cases augment <;>
      simp [plotTrainingPerformance, subdirName]
  · cases class_weights <;> cases augment <;>
      simp [evaluationMetrics, subdirName]

/-- Witness for C7 at a concrete `class_weights=False, augment=True` run. -/
theorem c7_witness :
    Effect.makedirs
      (osPathJoin "models" (subdirName sampleClassifier.base_model_name false true)) true ∈
      effsPlain ∧
    Effect.makedirs
      (osPathJoin "graphs" (subdirName sampleClassifier.base_model_name false true)) true ∈
      (plotTrainingPerformance sampleClassifier
        { accuracy := [], val_accuracy := [], loss := [], val_loss := [] } false true).2 ∧
    Effect.makedirs
      (osPathJoin "graphs" (subdirName sampleClassifier.base_model_name false true)) true ∈
      (evaluationMetrics sampleClassifier constSklearnLib [] [] false true).2.effects :=
  c7_dir_choice_agrees sampleClassifier [] 5 10 8 false true (fun call => call)
    (fitPost sampleClassifier) (plainFitCall 5 10 8) effsPlain constSklearnLib [] []
    { accuracy := [], val_accuracy := [], loss := [], val_loss := [] } rfl

/-- Claim C8: every successful `train` run performs exactly one `fit`, and
that `fit` receives exactly one callback: `EarlyStopping(monitor="val_loss",
patience=13, restore_best_weights=True)`, for every `(class_weights,
augment)` combination. -/
theorem c8_single_early_stopping_callback {H : Type} (self : ImageClassifier)
    (train_classes : List Nat) (epochs step_size_train step_size_val : Nat)
    (class_weights augment : Bool) (fitImpl : FitCall → H)
    (post : ImageClassifier) (hist : H) (effs : List Effect)
    (hok : train self train_classes epochs step_size_train step_size_val class_weights
      augment fitImpl = Except.ok (post, hist, effs)) :
    effs.countP isFitEffect = 1 ∧
    ∀ call, Effect.fit call ∈ effs →
      call.callbacks = [Callback.earlyStopping
        { monitor := "val_loss", patience := 13, restore_best_weights := true }] := by
  obtain ⟨call, _, _, heffs, hcb, _, _⟩ :=
    train_ok_spec self train_classes epochs step_size_train step_size_val class_weights
      augment fitImpl post hist effs hok
  subst heffs
  constructor
  · simp [isFitEffect, List.countP_cons, List.countP_nil]
  · intro call2 hmem
    simp only [List.mem_cons, List.not_mem_nil, or_false] at hmem
    rcases hmem with h | h | h
    · simp only [Effect.fit.injEq] at h
      subst h
      exact hcb
    · exact absurd h (by simp)
    · exact absurd h (by simp)

/-- Witness for C8 at a concrete `class_weights=False, augment=True` run. -/
theorem c8_witness :
    effsPlain.countP isFitEffect = 1 ∧
    ∀ call, Effect.fit call ∈ effsPlain →
      call.callbacks = [Callback.earlyStopping
        { monitor := "val_loss", patience := 13, restore_best_weights := true }] :=
  c8_single_early_stopping_callback sampleClassifier [] 5 10 8 false true
    (fun call => call) (fitPost sampleClassifier) (plainFitCall 5 10 8) effsPlain rfl

/-- Claim C9: the backbone always receives `input_shape + (3,)` (tuple
concatenation), so the result is a 3-component image shape exactly when the
constructor argument is a 2-tuple; the docstring's own example
`(120, 120, 3)` yields the 4-component `(120, 120, 3, 3)`. -/
theorem c9_input_shape_concat (input_shape : List Nat) (num_classes : Nat)
    (activation base_model_name : String) (nLayers : Nat) (c : ImageClassifier)
    (hok : init input_shape num_classes activation base_model_name nLayers = Except.ok c) :
    c.model.backboneInputShape = input_shape ++ [3] ∧
    (c.model.backboneInputShape.length = 3 ↔ input_shape.length = 2) := by
  obtain ⟨_, _, _, _, _, _, hshape, _, _, _, _, _, _, _, _, _⟩ :=
    init_ok_spec input_shape num_classes activation base_model_name nLayers c hok
  refine ⟨hshape, ?_⟩
  rw [hshape]
  simp only [List.length_append, List.length_cons, List.length_nil]
  omega

/-- Witness for C9 at the docstring example `(120, 120, 3)`: the backbone
gets `(120, 120, 3, 3)`, not a 3-component shape. -/
theorem c9_witness :
    init [120, 120, 3] 2 "sigmoid" "VGG16" 3 = Except.ok docExampleClassifier ∧
    docExampleClassifier.model.backboneInputShape = [120, 120, 3] ++ [3] ∧
    ¬ docExampleClassifier.model.backboneInputShape.length = 3 :=
  ⟨rfl,
   (c9_input_shape_concat [120, 120, 3] 2 "sigmoid" "VGG16" 3 docExampleClassifier rfl).1,
   fun h =>
     (by decide : ¬ ([120, 120, 3] : List Nat).length = 2)
       ((c9_input_shape_concat [120, 120, 3] 2 "sigmoid" "VGG16" 3 docExampleClassifier
          rfl).2.mp h)⟩

/-- Claim C10: backbone selection and the stored name are invariant under
letter case: two constructor names with the same Python lowercasing yield
identical `init` results, hence identical stored `base_model_name` and
identical artifact paths derived from it. -/
theorem c10_name_case_insensitive (input_shape : List Nat) (num_classes : Nat)
    (activation : String) (s t : String) (nLayers : Nat)
    (h : pyLower s = pyLower t) :
    init input_shape num_classes activation s nLayers =
      init input_shape num_classes activation t nLayers := by
  unfold init
  rw [h]

/-- Witness for C10: `"VGG16"` and `"vgg16"` build identical classifiers. -/
theorem c10_witness :
    init [120, 120] 2 "sigmoid" "VGG16" 3 = init [120, 120] 2 "sigmoid" "vgg16" 3 :=
  c10_name_case_insensitive [120, 120] 2 "sigmoid" "VGG16" "vgg16" 3 (by decide)

end CNN
